import Mathlib

/-!
Verification of the TRPG-JSON export pipeline (rust/core/src/export) against its
natural-language specification.  The Rust code is shallowly embedded: pure Rust
functions become Lean functions over `Nat`/`Int`/`String`/`List`, fallible code
returns `Except`, and the remote-API / filesystem effects are modelled by
returning the data that would be written.
-/

namespace TRPGJson

/-! ## Data model (rust/core/src/lib.rs)

`Part` and `Monster` mirror the serde structs.  `revision : f32`, `illust`,
`notes` and the open `extra` bag are not consulted by any export function
verified here and are omitted from the embedding; all fields the export
pipeline reads are present.  Rust `i32` is embedded as `Int` (no arithmetic in
the pipeline can overflow 32 bits: it only compares and pretty-prints values).
-/

structure Part where
  hp : Option Int
  mp : Int
  name : String
  core : Option Bool
  hit_rate : Option Int
  dodge : Option Int
  damage : Option Int
  part_count : Int
  special_abilities : String
  armor : Int
deriving Repr, DecidableEq

structure Monster where
  category : String
  level : Int
  data : String
  movein : Int
  movein_description : String
  moveon : Int
  moveon_description : String
  name : String
  part : List Part
  initiative : Int
  common_abilities : String
  weakness : String
  weakness_value : Int
  life_resistance : Int
  fame : Int
  mental_resistance : Int
deriving Repr, DecidableEq

/-! ## Rust `str::replace`

`str::replace(from, to)` substitutes every non-overlapping occurrence of
`from`, scanning left to right.  It is embedded as a structural recursion over
the character list (with the list length as fuel, so that the kernel can
evaluate it); for the non-empty patterns used in this repository this is
exactly the Rust semantics.
-/

/-- One left-to-right pass replacing non-overlapping occurrences of `pat`
by `rep`.  `fuel` bounds the recursion depth; `s.length` always suffices. -/
def replaceList : Nat → List Char → List Char → List Char → List Char
  | 0, s, _, _ => s
  | _ + 1, [], _, _ => []
  | fuel + 1, c :: rest, pat, rep =>
      if pat.isPrefixOf (c :: rest) ∧ pat ≠ [] then
        rep ++ replaceList fuel ((c :: rest).drop pat.length) pat rep
      else
        c :: replaceList fuel rest pat rep

/-- Embedding of Rust `str::replace` (literal pattern, all occurrences). -/
def rustReplace (s pat rep : String) : String :=
  String.mk (replaceList s.data.length s.data pat.data rep.data)

/-! ## StatAdjuster and WeaknessTextTransformer

`DataTransformer::adjust_value` and the two `transform_weakness` functions
(rust/core/src/export/udonarium/data_transformer.rs and
rust/core/src/export/sheets.rs).
-/

namespace Udonarium

/-- Embedding of `DataTransformer::adjust_value` in
`udonarium/data_transformer.rs`: `(value - 7).max(0)`. -/
def adjust_value (value : Int) : Int :=
  max (value - 7) 0

/-- Embedding of `DataTransformer::transform_weakness` in
`udonarium/data_transformer.rs`: three sequential `String::replace` calls. -/
def transform_weakness (weakness : String) : String :=
  let result := weakness
  let result := rustReplace result ("エネルギー") ("E")
  let result := rustReplace result ("ダメージ") ("ダメ")
  let result := rustReplace result ("属性") ("")
  result

end Udonarium

namespace Sheets

/-- Embedding of `DataTransformer::transform_weakness` in `sheets.rs`:
`weakness.replace("エネルギー","E").replace("ダメージ","ダメ").replace("属性","")`. -/
def transform_weakness (weakness : String) : String :=
  rustReplace (rustReplace (rustReplace weakness ("エネルギー") ("E")) ("ダメージ") ("ダメ")) ("属性") ("")

end Sheets

/-! ## ColumnCodec (`GoogleSheetsClient::index_to_column`, sheets_api.rs)

The Rust loop starts from `num = index + 1` and repeatedly prepends the letter
for `(num - 1) % 26`, continuing with `(num - 1) / 26`, while `num > 0`.
-/

/-- The `while num > 0` loop of `index_to_column`.  One Rust iteration on
`num = n + 1` prepends letter `n % 26` and continues with `n / 26`.  The loop
variable strictly decreases, so `fuel = num` iterations always complete the
loop; fuel-indexed structural recursion keeps the function kernel-computable. -/
def index_to_column_loop : Nat → Nat → String → String
  | 0, _, acc => acc
  | _ + 1, 0, acc => acc
  | fuel + 1, n + 1, acc =>
      index_to_column_loop fuel (n / 26) (String.singleton (Char.ofNat (65 + n % 26)) ++ acc)

/-- Embedding of `GoogleSheetsClient::index_to_column`. -/
def index_to_column (index : Nat) : String :=
  index_to_column_loop (index + 1) (index + 1) ""

/-- Spec-side definition ("bijective base-26 encoding using digits A–Z with no
zero digit"), written from the spec's words for comparison with
`index_to_column`. -/
def bijectiveBase26 : Nat → String
  | i =>
    if h : i < 26 then
      String.singleton (Char.ofNat (65 + i))
    else
      bijectiveBase26 (i / 26 - 1) ++ String.singleton (Char.ofNat (65 + i % 26))
decreasing_by
  have h2 : i / 26 < i := Nat.div_lt_self (by omega) (by norm_num)
  omega

/-! ## SheetsClient empty-row search (`GoogleSheetsClient::find_empty_row`)

The network part of `find_empty_row` fetches column A over `A3:A1000` and
reduces the response to `values`, the number of populated cells read.  The
placement decision is a pure function of that count, embedded here.  The Rust
loop `for i in (0..1000).step_by(2)` visits `i = 2*k` for `k < 500`.
-/

inductive SheetsApiError where
  | requestFailed (msg : String)
  | invalidSpreadsheetId (msg : String)
  | sheetNotFound (msg : String)
  | noEmptyRows
  | transformationError (msg : String)
deriving Repr, DecidableEq

/-- The `for i in (0..1000).step_by(2)` search of `find_empty_row`: the loop
visits `i = 2*k` for `k = 0, 1, ..., 499`, returning `3 + i` at the first `i`
with `values <= i`, and `NoEmptyRows` when the range is exhausted.  `fuel` is
the number of iterations left (`500 - k` at loop entry `k`). -/
def find_empty_row_search (values : Nat) : Nat → Nat → Except SheetsApiError Nat
  | _, 0 => Except.error SheetsApiError.noEmptyRows
  | k, fuel + 1 =>
      if values ≤ 2 * k then Except.ok (3 + 2 * k)
      else find_empty_row_search values (k + 1) fuel

/-- Embedding of the placement decision of `GoogleSheetsClient::find_empty_row`
as a function of `values`, the number of entries in the `values` array of the
`A3:A1000` read (the populated column-A cells).  `values == 0` short-circuits
to row 3; otherwise the stepped search runs from `i = 0`. -/
def find_empty_row (values : Nat) : Except SheetsApiError Nat :=
  if values = 0 then Except.ok 3
  else find_empty_row_search values 0 500

/-- Embedding of `GoogleSheetsClient::validate_spreadsheet_id`
(`str::len` counts UTF-8 bytes, hence `utf8ByteSize`). -/
def validate_spreadsheet_id (spreadsheet_id : String) : Except SheetsApiError Unit :=
  if spreadsheet_id = "" then
    Except.error (SheetsApiError.invalidSpreadsheetId ("Spreadsheet ID cannot be empty"))
  else if spreadsheet_id.utf8ByteSize < 10 then
    Except.error (SheetsApiError.invalidSpreadsheetId ("Spreadsheet ID is too short"))
  else
    Except.ok ()

/-! ## SheetRowTransformer (`DataTransformer` in sheets.rs)

Each Rust assignment `row[j] = Some(e)` becomes `row.set j (some e)`; an
assignment guarded by `if let Some(x)` / `if !s.is_empty()` writes the
corresponding `Option`-valued cell (writing `none` where the guard fails,
which leaves the cell absent exactly as the skipped assignment does).
-/

structure SheetOutput where
  row_number : Nat
  values : List (Option String)
  is_merged_row : Bool
deriving Repr, DecidableEq

namespace Sheets

/-- Embedding of `DataTransformer::create_odd_row`. -/
def create_odd_row (monster : Monster) (part : Part) (is_first_part : Bool) :
    List (Option String) :=
  let row : List (Option String) := List.replicate 54 none
  let name_value :=
    if part.name = "" then monster.name
    else monster.name ++ "\n(" ++ part.name ++ ")"
  let name_value := if part.core.getD false then "★" ++ name_value else name_value
  let row := row.set 0 (some name_value)
  let row := row.set 11 (part.hp.map (fun hp => toString hp))
  let row := row.set 15 (some (if 0 ≤ part.mp then toString part.mp else "-"))
  let row := row.set 17 (some (toString part.armor))
  let row := row.set 19 (some (if is_first_part then toString monster.initiative else "-"))
  let row := row.set 21 (some (if is_first_part then toString monster.life_resistance else "-"))
  let row := row.set 23 (some (if is_first_part then toString monster.mental_resistance else "-"))
  let row := row.set 25 (some ("3"))
  let row := row.set 27 (some (if monster.moveon = -1 then "-"
    else if monster.moveon_description = "" then toString monster.moveon
    else toString monster.moveon ++ "\n(" ++ monster.moveon_description ++ ")"))
  let row := row.set 29 (some (if monster.movein = -1 then "-"
    else if monster.movein_description = "" then toString monster.movein
    else toString monster.movein ++ "\n(" ++ monster.movein_description ++ ")"))
  let row := row.set 31 (part.hit_rate.map (fun hit_rate => toString hit_rate))
  let row := row.set 33 (part.dodge.map (fun dodge => toString dodge))
  let row := row.set 35 (some monster.data)
  let row := row.set 38 (if monster.common_abilities = "" then none
    else some monster.common_abilities)
  let row := row.set 48 (some (if is_first_part then
    toString monster.fame ++ "/" ++ toString monster.weakness_value else "-/-"))
  row

/-- Embedding of `DataTransformer::create_even_row`. -/
def create_even_row (monster : Monster) (part : Part) (is_first_part : Bool) :
    List (Option String) :=
  let row : List (Option String) := List.replicate 54 none
  let row := row.set 38 (if part.special_abilities = "" then none
    else some part.special_abilities)
  let row := row.set 48 (some (if is_first_part then
    (if monster.weakness = "" then "-" else transform_weakness monster.weakness)
    else "-"))
  row

/-- Embedding of `DataTransformer::transform_monster`: two `SheetOutput` rows
per body part, in part order. -/
def transform_monster (monster : Monster) (start_row : Nat) : List SheetOutput :=
  monster.part.enum.flatMap (fun pi =>
    [ { row_number := start_row + pi.1 * 2,
        values := create_odd_row monster pi.2 (pi.1 == 0),
        is_merged_row := false },
      { row_number := start_row + pi.1 * 2 + 1,
        values := create_even_row monster pi.2 (pi.1 == 0),
        is_merged_row := false } ])

end Sheets

/-! ## PartNamer (udonarium/part_namer.rs)

`PartNamer::new` fills a `HashMap<String, usize>` of per-name occurrence
counts; the map is embedded as its lookup function.  `generate_names` walks
the parts with a second counter map `current_indices` (`entry(..).and_modify(
|e| *e += 1).or_insert(0)` yields 0 on first sight of a name, and the
incremented counter afterwards), embedded as an explicit `String → Option Nat`
state.
-/

structure PartName where
  filename : String
  display_name : String
deriving Repr, DecidableEq

namespace PartNamer

/-- `PartNamer::new`: per-name occurrence count over the part list. -/
def name_counts (parts : List Part) (name : String) : Nat :=
  parts.countP (fun p => p.name == name)

/-- Embedding of `PartNamer::generate_name` (single part, given its
occurrence index).  `counts` is the `name_counts` map; a name absent from the
map reads as 1 (`unwrap_or(&1)`). -/
def generate_name (counts : String → Nat) (monster_name : String) (p : Part)
    (index : Nat) : PartName :=
  let part_name := p.name
  let is_core := p.core.getD false
  let count := if counts part_name = 0 then 1 else counts part_name
  if part_name = "" then
    if is_core then
      { filename := monster_name, display_name := monster_name }
    else
      { filename := monster_name ++ "_" ++ toString index,
        display_name := monster_name ++ "_" ++ toString index }
  else if count > 1 then
    { filename := monster_name ++ "_" ++ part_name ++ "_" ++ toString index,
      display_name := monster_name ++ "\n(" ++ part_name ++ ")" }
  else
    { filename := monster_name ++ "_" ++ part_name,
      display_name := monster_name ++ "\n(" ++ part_name ++ ")" }

/-- The loop of `PartNamer::generate_names`, with the `current_indices`
counter map carried as explicit state. -/
def generate_names_go (counts : String → Nat) (monster_name : String) :
    List Part → (String → Option Nat) → List PartName
  | [], _ => []
  | p :: rest, idx =>
      let i := match idx p.name with
        | some v => v + 1
        | none => 0
      generate_name counts monster_name p i ::
        generate_names_go counts monster_name rest
          (fun k => if k = p.name then some i else idx k)

/-- Embedding of `PartNamer::new(parts)` followed by
`generate_names(parts, monster_name)` — the only way the exporter uses the
type (both calls receive the same part list). -/
def generate_names (parts : List Part) (monster_name : String) : List PartName :=
  generate_names_go (name_counts parts) monster_name parts (fun _ => none)

end PartNamer

/-! ## UdonariumTransformer (udonarium/data_transformer.rs) -/

namespace Udonarium

structure TransformedPart where
  display_name : String
  hp : Int
  mp : Int
  armor : Int
  hit_rate : Int
  dodge : Int
  damage : Int
  life_resistance : Int
  mental_resistance : Int
  special_abilities : String
  is_core : Bool
  weakness : String
  weakness_value : Int
deriving Repr, DecidableEq

structure TransformedMonster where
  name : String
  category : String
  level : Int
  fame : Int
  initiative : Int
  common_abilities : String
  parts : List TransformedPart
deriving Repr, DecidableEq

/-- Embedding of `DataTransformer::transform` in `udonarium/data_transformer.rs`
(the `if is_core` branches for the two resistances are kept as written in the
source, where both arms copy the creature-level value). -/
def transform (monster : Monster) (display_names : List String) : TransformedMonster :=
  { name := monster.name
    category := monster.category
    level := monster.level
    fame := monster.fame
    initiative := monster.initiative
    common_abilities := monster.common_abilities
    parts := monster.part.enum.map (fun (ip : Nat × Part) =>
      let part := ip.2
      let is_core := part.core.getD false
      ({ display_name := (display_names.get? ip.1).getD "",
         hp := part.hp.getD 0,
         mp := if part.mp < 0 then 0 else part.mp,
         armor := part.armor,
         hit_rate := part.hit_rate.getD 0,
         dodge := part.dodge.getD 0,
         damage := part.damage.getD 0,
         life_resistance :=
           if is_core then monster.life_resistance else monster.life_resistance,
         mental_resistance :=
           if is_core then monster.mental_resistance else monster.mental_resistance,
         special_abilities := part.special_abilities,
         is_core := is_core,
         weakness := if is_core then monster.weakness else "",
         weakness_value := if is_core then monster.weakness_value else 0 } : TransformedPart)) }

/-! ## XmlGenerator (udonarium/xml_generator.rs)

Each `format!` template is embedded as the concatenation of its literal
segments (with `{{`/`}}` unescaped to literal braces, written `\x7b`/`\x7d`)
and its arguments, in source order.  The text after the last argument of each
template — which contains the whole chat-palette block — is split off as a
named tail constant so that theorems can talk about it.
-/

/-- The literal text of the core template after its last `format!` argument
(`monster.level`): the closing tags of the detail block followed by the whole
chat-palette block. -/
def core_xml_tail : String :=
  "</data>\n      </data>\n    </data>\n  </data>\n  <chat-palette dicebot=\"SwordWorld2.5\">\n//-----計算\nC(\x7bHP\x7d+\x7b防護点\x7d+\x7bダメージ軽減\x7d-()) 　【残HP（物理ダメージ）】\nC(\x7bHP\x7d+\x7bダメージ軽減\x7d-())　【残HP（魔法ダメージ）】\nC(\x7bMP\x7d-())　【MP消費】\nC\x7bHP\x7d　【現在HP】\nC\x7bMP\x7d　【現在MP】\n\n//-----固定値判定\nC(\x7b命中力\x7d+7) 命中判定（固定値）\nC(\x7b回避力\x7d+7) 回避判定（固定値）\nC(\x7b生命抵抗力\x7d+7) 生命抵抗判定（固定値）\nC(\x7b精神抵抗力\x7d+7) 精神抵抗判定（固定値）\n\n//-----ダイス判定\n2d+\x7b命中力\x7d　命中判定\n2d+\x7b打撃点\x7d　ダメージロール\n2d+\x7b回避力\x7d　回避判定\n2d+\x7b生命抵抗力\x7d　生命抵抗判定\n2d+\x7b精神抵抗力\x7d　精神抵抗判定\n  </chat-palette>\n</character>"

/-- The literal text of the non-core template after its last `format!`
argument (`part.special_abilities`). -/
def non_core_xml_tail : String :=
  "</data>\n       </data>\n     </data>\n   </data>\n   <chat-palette dicebot=\"SwordWorld2.5\">\n//-----計算\nC(\x7bHP\x7d+\x7b防護点\x7d+\x7bダメージ軽減\x7d-()) 　【残HP（物理ダメージ）】\nC(\x7bHP\x7d+\x7bダメージ軽減\x7d-())　【残HP（魔法ダメージ）】\nC(\x7bMP\x7d-())　【MP消費】\nC\x7bHP\x7d　【現在HP】\nC\x7bMP\x7d　【現在MP】\n\n//-----固定値判定\nC(\x7b命中力\x7d+7) 命中判定（固定値）\nC(\x7b回避力\x7d+7) 回避判定（固定値）\nC(\x7b生命抵抗力\x7d+7) 生命抵抗判定（固定値）\nC(\x7b精神抵抗力\x7d+7) 精神抵抗判定（固定値）\n\n//-----ダイス判定\n2d+\x7b命中力\x7d　命中判定\n2d+\x7b打撃点\x7d　ダメージロール\n2d+\x7b回避力\x7d　回避判定\n2d+\x7b生命抵抗力\x7d　生命抵抗判定\n2d+\x7b精神抵抗力\x7d　精神抵抗判定\n   </chat-palette>\n </character>"

/-- Embedding of `XmlGenerator::generate_core_part_xml` (always returns `Ok`
in the source; the `Result` wrapper lives in `generate_xml`). -/
def generate_core_part_xml (monster : TransformedMonster) (part : TransformedPart) : String :=
  "<?xml version=\"1.0\" encoding=\"utf-8\"?>\n<character location.name=\"table\" location.x=\"0\" location.y=\"0\" posZ=\"0\" rotate=\"0\" roll=\"0\">\n  <data name=\"character\">\n    <data name=\"image\">\n      <data type=\"image\" name=\"imageIdentifier\"></data>\n    </data>\n    <data name=\"common\">\n      <data name=\"name\">"
    ++ part.display_name
    ++ "</data>\n      <data name=\"size\">1</data>\n    </data>\n    <data name=\"detail\">\n      <data name=\"リソース\">\n        <data type=\"numberResource\" currentValue=\""
    ++ toString part.hp ++ "\" name=\"HP\">" ++ toString part.hp
    ++ "</data>\n        <data type=\"numberResource\" currentValue=\""
    ++ toString part.mp ++ "\" name=\"MP\">" ++ toString part.mp
    ++ "</data>\n        <data type=\"numberResource\" currentValue=\""
    ++ toString part.armor ++ "\" name=\"防護点\">" ++ toString part.armor
    ++ "</data>\n      </data>\n      <data name=\"ステータス・バフ・デバフ\">\n        <data name=\"命中力\" type=\"number\">"
    ++ toString (adjust_value part.hit_rate)
    ++ "</data>\n        <data name=\"打撃点\" type=\"number\">"
    ++ toString part.damage
    ++ "</data>\n        <data name=\"回避力\" type=\"number\">"
    ++ toString (adjust_value part.dodge)
    ++ "</data>\n        <data name=\"生命抵抗力\" type=\"number\">"
    ++ toString (adjust_value part.life_resistance)
    ++ "</data>\n        <data name=\"精神抵抗力\" type=\"number\">"
    ++ toString (adjust_value part.mental_resistance)
    ++ "</data>\n      </data>\n      <data name=\"特殊能力\">\n        <data name=\"特殊能力1\" type=\"note\">"
    ++ monster.common_abilities
    ++ "</data>\n        <data name=\"特殊能力2\" type=\"note\">"
    ++ part.special_abilities
    ++ "</data>\n      </data>\n       <data name=\"戦闘準備\">\n         <data name=\"魔物知識・先制判定\" type=\"note\">"
    ++ toString monster.fame ++ "/" ++ toString part.weakness_value
    ++ "\n" ++ toString monster.initiative
    ++ "</data>\n       </data>\n      <data name=\"情報\">\n        <data name=\"弱点\" type=\"note\">"
    ++ transform_weakness part.weakness
    ++ "</data>\n      </data>\n      <data name=\"魔物知識\">\n        <data name=\"生態\" type=\"note\">"
    ++ monster.category ++ " Lv." ++ toString monster.level
    ++ core_xml_tail

/-- Embedding of `XmlGenerator::generate_non_core_part_xml`. -/
def generate_non_core_part_xml (monster : TransformedMonster) (part : TransformedPart) : String :=
  "<?xml version=\"1.0\" encoding=\"utf-8\"?>\n  <character location.name=\"table\" location.x=\"0\" location.y=\"0\" posZ=\"0\" rotate=\"0\" roll=\"0\">\n    <data name=\"character\">\n      <data name=\"image\">\n        <data type=\"image\" name=\"imageIdentifier\"></data>\n      </data>\n      <data name=\"common\">\n        <data name=\"name\">"
    ++ part.display_name
    ++ "</data>\n        <data name=\"size\">1</data>\n      </data>\n      <data name=\"detail\">\n       <data name=\"リソース\">\n         <data type=\"numberResource\" currentValue=\""
    ++ toString part.hp ++ "\" name=\"HP\">" ++ toString part.hp
    ++ "</data>\n         <data type=\"numberResource\" currentValue=\""
    ++ toString part.mp ++ "\" name=\"MP\">" ++ toString part.mp
    ++ "</data>\n         <data type=\"numberResource\" currentValue=\""
    ++ toString part.armor ++ "\" name=\"防護点\">" ++ toString part.armor
    ++ "</data>\n       </data>\n       <data name=\"ステータス・バフ・デバフ\">\n         <data name=\"命中力\" type=\"number\">"
    ++ toString (adjust_value part.hit_rate)
    ++ "</data>\n         <data name=\"打撃点\" type=\"number\">"
    ++ toString part.damage
    ++ "</data>\n         <data name=\"回避力\" type=\"number\">"
    ++ toString (adjust_value part.dodge)
    ++ "</data>\n         <data name=\"生命抵抗力\" type=\"number\">"
    ++ toString (adjust_value part.life_resistance)
    ++ "</data>\n         <data name=\"精神抵抗力\" type=\"number\">"
    ++ toString (adjust_value part.mental_resistance)
    ++ "</data>\n       </data>\n       <data name=\"特殊能力\">\n         <data name=\"特殊能力1\" type=\"note\">"
    ++ monster.common_abilities
    ++ "</data>\n         <data name=\"特殊能力2\" type=\"note\">"
    ++ part.special_abilities
    ++ non_core_xml_tail

/-- Embedding of `XmlGenerator::generate_xml`. -/
def generate_xml (transformed : TransformedMonster) (part_index : Nat) :
    Except String String :=
  if h : part_index < transformed.parts.length then
    let part := transformed.parts.get ⟨part_index, h⟩
    if part.is_core then Except.ok (generate_core_part_xml transformed part)
    else Except.ok (generate_non_core_part_xml transformed part)
  else
    Except.error ("Part index " ++ toString part_index ++ " out of bounds")

end Udonarium

/-! ## SpellPaletteRenderer (export/palette.rs)

Spell records carry an open bag of `serde_json::Value` fields; the value type
is embedded as `Json` below.  Numbers appearing in spell fields are integers
(`as_i64` is the only numeric accessor the module uses), so the embedding
carries `Int` numbers; `as_i64` on any non-number shape is `none` exactly as
in serde_json.
-/

inductive Json where
  | null
  | bool (b : Bool)
  | num (n : Int)
  | str (s : String)
  | arr (elems : List Json)
  | obj (fields : List (String × Json))
deriving Repr

def Json.as_i64 : Json → Option Int
  | .num n => some n
  | _ => none

def Json.as_str : Json → Option String
  | .str s => some s
  | _ => none

def Json.as_bool : Json → Option Bool
  | .bool b => some b
  | _ => none

def Json.as_object : Json → Option (List (String × Json))
  | .obj fields => some fields
  | _ => none

/-- `serde_json::Map::get` (keys of a parsed object are distinct). -/
def jsonGet (fields : List (String × Json)) (key : String) : Option Json :=
  (fields.find? (fun e => e.1 == key)).map (fun e => e.2)

structure Spell where
  name : String
  school : String
  extra : List (String × Json)
deriving Repr

/-- `Spell.extra.get(key)` on the flattened field bag. -/
def Spell.extraGet (spell : Spell) (key : String) : Option Json :=
  jsonGet spell.extra key

namespace Palette

def ERR_MISSING_NAME : String := "チャットパレット出力のためにはスペル名が必要です。"
def ERR_MISSING_MP : String := "MPコストは次のどれかで定義してください（value, value+, special）。"
def ERR_MISSING_TARGET : String := "対象の情報が必要です。魔法の対象は何ですか？"
def ERR_MISSING_RANGE : String := "射程の情報が必要です。魔法はどこまで届きますか？"
def ERR_MISSING_TIME : String := "時間の情報が必要です。魔法はどれだけ持続しますか？"
def ERR_MISSING_EFFECT : String := "効果の情報が必要です。魔法はどんな効果ですか？"
def ERR_MISSING_SCHOOL : String := "流派もしくはカテゴリの情報が通常魔法には必要です。"
def ERR_INVALID_TARGET_KIND : String := "対象は個別かエリアかを選択する必要があります。"
def ERR_INVALID_TIME_VALUE : String := "時間の値は文字列もしくは整数である必要があります。"

/-- Embedding of `format_magic_category` (`school.chars().count() == 2` is the
character count, i.e. `String.length`). -/
def format_magic_category (school : String) : String :=
  if school.length = 2 then school ++ "魔法" else school

/-- Embedding of `format_mp`: `value` (fixed cost), else `value+` (open-ended
minimum), else `special` (verbatim string); each probe falls through both when
the key is absent and when the value has the wrong shape. -/
def format_mp (spell : Spell) : Except String String :=
  match spell.extraGet ("MP") with
  | none => Except.error ERR_MISSING_MP
  | some mp_val =>
    match mp_val.as_object with
    | none => Except.error ERR_MISSING_MP
    | some mp_obj =>
      match (jsonGet mp_obj ("value")).bind Json.as_i64 with
      | some v => Except.ok (toString v)
      | none =>
        match (jsonGet mp_obj ("value+")).bind Json.as_i64 with
        | some v => Except.ok (toString v ++ "～")
        | none =>
          match (jsonGet mp_obj ("special")).bind Json.as_str with
          | some s => Except.ok s
          | none => Except.error ERR_MISSING_MP

/-- Embedding of `format_target`. -/
def format_target (spell : Spell) : Except String String :=
  match spell.extraGet ("対象") with
  | none => Except.error ERR_MISSING_TARGET
  | some t =>
    match t.as_object with
    | none => Except.error ERR_MISSING_TARGET
    | some target_obj =>
      match (jsonGet target_obj ("kind")).bind Json.as_str with
      | none => Except.error ERR_INVALID_TARGET_KIND
      | some kind =>
        if kind = "個別" then
          match (jsonGet target_obj ("個別")).bind Json.as_str with
          | some individual => Except.ok individual
          | none => Except.error ERR_MISSING_TARGET
        else if kind = "エリア" then
          match (jsonGet target_obj ("エリア")).bind Json.as_object with
          | none => Except.error ERR_MISSING_TARGET
          | some area_obj =>
            match (jsonGet area_obj ("value")).bind Json.as_str with
            | none => Except.error ERR_MISSING_TARGET
            | some value =>
              match jsonGet area_obj ("半径(m)") with
              | none => Except.error ERR_MISSING_TARGET
              | some radius_val =>
                match (match radius_val.as_i64 with
                       | some i => some (toString i)
                       | none => radius_val.as_str) with
                | none => Except.error ERR_MISSING_TARGET
                | some radius_m =>
                  match jsonGet area_obj ("末尾") with
                  | none => Except.error ERR_MISSING_TARGET
                  | some tail_val =>
                    match (match tail_val.as_str with
                           | some s => some s
                           | none => tail_val.as_i64.map (fun i => toString i)) with
                    | none => Except.error ERR_MISSING_TARGET
                    | some tail_str =>
                      Except.ok (value ++ "(半径" ++ radius_m ++ "m" ++ tail_str ++ ")")
        else Except.error ERR_INVALID_TARGET_KIND

/-- Embedding of `format_range`: prefer `射程`, fall back to `射程(m)`,
each read as a string or an integer. -/
def format_range (spell : Spell) : Except String String :=
  match (spell.extraGet ("射程")).bind (fun range =>
      match range.as_str with
      | some r => some r
      | none => range.as_i64.map (fun i => toString i)) with
  | some r => Except.ok r
  | none =>
    match (spell.extraGet ("射程(m)")).bind (fun range =>
        match range.as_str with
        | some r => some r
        | none => range.as_i64.map (fun i => toString i)) with
    | some r => Except.ok r
    | none => Except.error ERR_MISSING_RANGE

/-- Embedding of `format_duration`. -/
def format_duration (spell : Spell) : Except String String :=
  match spell.extraGet ("時間") with
  | none => Except.error ERR_MISSING_TIME
  | some t =>
    match t.as_object with
    | none => Except.error ERR_MISSING_TIME
    | some time_obj =>
      match jsonGet time_obj ("value") with
      | none => Except.error ERR_INVALID_TIME_VALUE
      | some value =>
        match value.as_str with
        | some s => Except.ok s
        | none =>
          match value.as_i64 with
          | some i =>
            let unit := ((jsonGet time_obj ("unit")).bind Json.as_str).getD ""
            Except.ok (toString i ++ unit)
          | none => Except.error ERR_INVALID_TIME_VALUE

/-- Embedding of `generate_support_palette`. -/
def generate_support_palette (spell : Spell) : Except String String := do
  let mp ← format_mp spell
  let target ← format_target spell
  let duration ← format_duration spell
  let range ← format_range spell
  match (spell.extraGet ("効果")).bind Json.as_str with
  | none => Except.error ERR_MISSING_EFFECT
  | some effect =>
    Except.ok (spell.name ++ " / MP:" ++ mp ++ " / 対象:" ++ target
      ++ " / 射程:" ++ range ++ " / 時間:" ++ duration ++ " / " ++ effect)

/-- Embedding of `generate_regular_palette`. -/
def generate_regular_palette (spell : Spell) : Except String String :=
  if spell.school = "" then Except.error ERR_MISSING_SCHOOL
  else do
    let mp ← format_mp spell
    let target ← format_target spell
    let duration ← format_duration spell
    let range ← format_range spell
    match (spell.extraGet ("効果")).bind Json.as_str with
    | none => Except.error ERR_MISSING_EFFECT
    | some effect =>
      let magic_category := format_magic_category spell.school
      Except.ok ("2d+\x7b" ++ magic_category ++ "\x7d+\x7b行使修正\x7d  " ++ spell.name
        ++ " / MP:" ++ mp ++ " / 対象:" ++ target ++ " / 射程:" ++ range
        ++ " / 時間:" ++ duration ++ " / " ++ effect)

/-- Embedding of `generate_spell_palette`. -/
def generate_spell_palette (spell : Spell) : Except String String :=
  if spell.name = "" then Except.error ERR_MISSING_NAME
  else
    let is_support := ((spell.extraGet ("補助")).bind Json.as_bool).getD false
    if is_support then generate_support_palette spell
    else generate_regular_palette spell

end Palette

/-! ## Export strategies (export/mod.rs, google_sheets.rs, json.rs,
udonarium/mod.rs)

The strategies interleave pure checks with I/O.  Each is embedded up to its
first output effect: the function performs the source's pure validations in
source order and then returns the data the strategy would go on to write (the
batch of records for the Spreadsheet strategy, the zip entries for the
VirtualTabletop strategy, the file content for the JSON strategy).  An
`Except.error` result is produced strictly before any output would occur.
-/

inductive ExportError where
  | ioError (msg : String)
  | serializationError (msg : String)
  | authError (msg : String)
  | sheetsApiError (e : SheetsApiError)
  | googleSheetsError (msg : String)
  | invalidDestination (msg : String)
  | unsupportedFormat (msg : String)
deriving Repr, DecidableEq

/-- Embedding of the module-level `validate_spreadsheet_id` of
`google_sheets.rs` (not the one in `sheets_api.rs`). -/
def google_sheets_validate_spreadsheet_id (id : String) : Except ExportError Unit :=
  if id = "" then
    Except.error (ExportError.invalidDestination
      ("Spreadsheet ID cannot be empty.\nUsage: gm select ... --export sheets --output <spreadsheet-id>\nExample: gm select -l 6 --export sheets --output 1BxiMVs0XRA5nFMKUVfIz487hJblLvZQvq_fHM9GjMhs"))
  else if id.utf8ByteSize < 20 then
    Except.error (ExportError.invalidDestination
      ("Invalid spreadsheet ID \x27" ++ id ++ "\x27. \nSpreadsheet IDs are typically 40+ characters long.\nYou can find your spreadsheet ID in the URL:\nhttps://docs.google.com/spreadsheets/d/<SPREADSHEET_ID>/edit"))
  else
    Except.ok ()

/-- The work the Spreadsheet strategy performs after its pure checks
(authentication and one `append_monster_data` call per record, all I/O). -/
structure GoogleSheetsPlan where
  records : List Monster
  spreadsheet_id : String
deriving Repr, DecidableEq

/-- Embedding of `GoogleSheetsExporter::export` up to its first I/O:
destination validation, then the empty-list rejection. -/
def google_sheets_export (data : List Monster) (destination : String) :
    Except ExportError GoogleSheetsPlan :=
  match google_sheets_validate_spreadsheet_id destination with
  | Except.error e => Except.error e
  | Except.ok _ =>
    if data.isEmpty then
      Except.error (ExportError.googleSheetsError
        ("Cannot export empty monster list. Please filter data first."))
    else
      Except.ok { records := data, spreadsheet_id := destination }

/-- The zip entries one monster contributes in `UdonariumExporter::export`
(file name from PartNamer plus `.xml`, content from XmlGenerator).  The
`part_names[i]` index is always in bounds (`generate_names` is
length-preserving); the `getD` default is unreachable. -/
def monster_zip_entries (monster : Monster) : Except ExportError (List (String × String)) :=
  let part_names := PartNamer.generate_names monster.part monster.name
  let display_names := part_names.map (fun pn => pn.display_name)
  let transformed := Udonarium.transform monster display_names
  (List.range transformed.parts.length).mapM (fun i =>
    match Udonarium.generate_xml transformed i with
    | Except.ok xml =>
        Except.ok ((((part_names.get? i).map (fun pn => pn.filename)).getD "") ++ ".xml", xml)
    | Except.error e =>
        Except.error (ExportError.googleSheetsError
          ("XML generation failed for " ++ monster.name ++ ": " ++ e)))

/-- Embedding of `UdonariumExporter::export` up to its first I/O: the
empty-list rejection comes first (before the output directory is even
created); the result is the list of zip entries handed to `ZipFileWriter`. -/
def udonarium_export (data : List Monster) : Except ExportError (List (String × String)) :=
  if data.isEmpty then
    Except.error (ExportError.googleSheetsError ("Cannot export empty monster list"))
  else
    (data.mapM monster_zip_entries).map (fun entry_lists => entry_lists.flatten)

/-- `serde_json::to_string_pretty` at the array level: an empty slice
serializes to `"[]"`; a non-empty one to a bracketed, indented element list.
Rendering of a single `Monster` element is the external serde serializer,
taken as the `render` parameter. -/
def to_string_pretty (render : Monster → String) (data : List Monster) : String :=
  match data with
  | [] => "[]"
  | _ => "[\n" ++ String.intercalate (",\n") (data.map (fun m => "  " ++ render m)) ++ "\n]"

/-- Embedding of `JsonExporter::export`: the parent-directory check (a pure
read of the filesystem, passed in as `parent_dir_exists`), then the file
content that `fs::write` receives. -/
def json_export (render : Monster → String) (data : List Monster)
    (parent_dir_exists : Bool) : Except ExportError String :=
  if parent_dir_exists then
    Except.ok (to_string_pretty render data)
  else
    Except.error (ExportError.invalidDestination ("Output directory does not exist"))

/-! ## Spec-side constants and counting helper for the chat-palette claims -/

/-- Counts non-overlapping occurrences of `pat` (same left-to-right scan as
`replaceList`). -/
def countOccurrences : Nat → List Char → List Char → Nat
  | 0, _, _ => 0
  | _ + 1, [], _ => 0
  | fuel + 1, c :: rest, pat =>
      if pat.isPrefixOf (c :: rest) ∧ pat ≠ [] then
        1 + countOccurrences fuel ((c :: rest).drop pat.length) pat
      else
        countOccurrences fuel rest pat

/-- Number of non-overlapping occurrences of `pat` in `s`. -/
def countSubstr (s pat : String) : Nat :=
  countOccurrences s.data.length s.data pat.data

/-- The opening line of the chat-palette block (spec: "chat-macro block"). -/
def chat_palette_open : String :=
  "<chat-palette dicebot=\"SwordWorld2.5\">\n"

/-- The running-total helper section of the chat-palette block
(spec: five helper formulas). -/
def chat_palette_calc : String :=
  "//-----計算\nC(\x7bHP\x7d+\x7b防護点\x7d+\x7bダメージ軽減\x7d-()) 　【残HP（物理ダメージ）】\nC(\x7bHP\x7d+\x7bダメージ軽減\x7d-())　【残HP（魔法ダメージ）】\nC(\x7bMP\x7d-())　【MP消費】\nC\x7bHP\x7d　【現在HP】\nC\x7bMP\x7d　【現在MP】\n\n"

/-- The fixed-value judgment section of the chat-palette block: four formulas
of the form `C(\x7bstat\x7d+7)` for hit, dodge, life resistance and mental
resistance. -/
def chat_palette_fixed : String :=
  "//-----固定値判定\nC(\x7b命中力\x7d+7) 命中判定（固定値）\nC(\x7b回避力\x7d+7) 回避判定（固定値）\nC(\x7b生命抵抗力\x7d+7) 生命抵抗判定（固定値）\nC(\x7b精神抵抗力\x7d+7) 精神抵抗判定（固定値）\n\n"

/-- The dice judgment section of the chat-palette block: five `2d+` rolls for
hit, damage, dodge, life resistance and mental resistance. -/
def chat_palette_dice : String :=
  "//-----ダイス判定\n2d+\x7b命中力\x7d　命中判定\n2d+\x7b打撃点\x7d　ダメージロール\n2d+\x7b回避力\x7d　回避判定\n2d+\x7b生命抵抗力\x7d　生命抵抗判定\n2d+\x7b精神抵抗力\x7d　精神抵抗判定\n"

/-! ## Concrete fixtures (taken from the repository test suite), used by the
witness theorems -/

/-- The single core body part of the test creature in `sheets.rs`
(`test_transform_single_part_monster`). -/
def test_part : Part :=
  { hp := some 48, mp := 75, name := "", core := some true, hit_rate := some 15,
    dodge := some 15, damage := some 6, part_count := 1,
    special_abilities := "飛行適性", armor := 5 }

/-- The test creature "テストモンスター" of `sheets.rs`. -/
def test_monster : Monster :=
  { category := "蛮族", level := 6, data := "TEST001", movein := 22,
    movein_description := "飛行", moveon := 22, moveon_description := "",
    name := "テストモンスター", part := [test_part], initiative := 14,
    common_abilities := "飛行", weakness := "属性ダメージ+3", weakness_value := 17,
    life_resistance := 16, fame := 14, mental_resistance := 16 }

/-- One of the three identically named "根" parts of the PartNamer duplicate
test (`test_multi_part_with_duplicate_names`); `core` distinguishes the
first. -/
def root_part (core : Bool) : Part :=
  { hp := some 50, mp := 50, name := "根", core := some core, hit_rate := some 15,
    dodge := some 15, damage := some 6, part_count := 1,
    special_abilities := "", armor := 5 }

/-- The regular spell "ゴッド・ジャッジメント" of the palette test suite
(`test_regular_palette_basic`). -/
def god_judgement_spell : Spell :=
  { name := "ゴッド・ジャッジメント", school := "神聖",
    extra := [("補助", Json.bool false),
      ("MP", Json.obj [("value", Json.num 15)]),
      ("対象", Json.obj [("kind", Json.str "エリア"),
        ("エリア", Json.obj [("value", Json.str "1エリア"),
          ("半径(m)", Json.num 4), ("末尾", Json.str "すべて")])]),
      ("射程", Json.str "術者"),
      ("時間", Json.obj [("value", Json.str "一瞬")]),
      ("効果", Json.str "物理的に神の捌きを下す。")] }

/-! ## Proof-support definitions -/

/-- The `current_indices` counter-map state of `PartNamer::generate_names`
after processing the prefix `pre` of the part list: a name maps to
(occurrences seen) - 1 once seen. -/
def occState (pre : List Part) : String → Option Nat := fun k =>
  if pre.countP (fun q => q.name == k) = 0 then none
  else some (pre.countP (fun q => q.name == k) - 1)

/-- The two-rows-per-part body of `Sheets.transform_monster`, named for the
indexing lemmas. -/
def transform_pair (m : Monster) (s : Nat) (pi : Nat × Part) : List SheetOutput :=
  [ { row_number := s + pi.1 * 2,
      values := Sheets.create_odd_row m pi.2 (pi.1 == 0),
      is_merged_row := false },
    { row_number := s + pi.1 * 2 + 1,
      values := Sheets.create_even_row m pi.2 (pi.1 == 0),
      is_merged_row := false } ]

end TRPGJson

/-! # Theorems

Helper lemmas first, then one theorem (and, where hypotheses require it, one
witness) per specification claim.
-/

namespace TRPGJson

lemma getD_set_ne' {α} {l : List α} {a d : α} {i j : Nat} (h : j ≠ i) :
    (l.set i a).getD j d = l.getD j d := by
  simp [List.getElem?_set_ne (Ne.symm h)]

lemma getD_replicate {α} (n j : Nat) (a : α) :
    (List.replicate n a).getD j a = a := by
  simp [List.getElem?_replicate]
  split <;> simp

/-! ## ColumnCodec lemmas -/

lemma index_to_column_loop_zero (fuel : Nat) (acc : String) :
    index_to_column_loop fuel 0 acc = acc := by
  cases fuel <;> rfl

lemma index_to_column_loop_spec (n : Nat) :
    ∀ fuel acc, n < fuel → index_to_column_loop fuel (n + 1) acc = bijectiveBase26 n ++ acc := by
  induction n using Nat.strong_induction_on with
  | _ n ih =>
    intro fuel acc hfuel
    obtain ⟨f, rfl⟩ : ∃ f, fuel = f + 1 := ⟨fuel - 1, by omega⟩
    rw [index_to_column_loop]
    by_cases h26 : n < 26
    · have hdiv : n / 26 = 0 := Nat.div_eq_of_lt h26
      have hmod : n % 26 = n := Nat.mod_eq_of_lt h26
      rw [hdiv, index_to_column_loop_zero, bijectiveBase26, dif_pos h26, hmod]
    · have hpos : 1 ≤ n / 26 := (Nat.one_le_div_iff (by norm_num)).mpr (Nat.le_of_not_lt h26)
      have hdivlt : n / 26 < n := Nat.div_lt_self (by omega) (by norm_num)
      obtain ⟨m, hm⟩ : ∃ m, n / 26 = m + 1 := ⟨n / 26 - 1, by omega⟩
      have hbij : bijectiveBase26 n
          = bijectiveBase26 m ++ String.singleton (Char.ofNat (65 + n % 26)) := by
        rw [bijectiveBase26, dif_neg h26]
        congr 2
        omega
      rw [hm, ih m (by omega) f _ (by omega), hbij, String.append_assoc]

lemma index_to_column_eq_bij (i : Nat) : index_to_column i = bijectiveBase26 i := by
  have h := index_to_column_loop_spec i (i + 1) "" (by omega)
  simpa [index_to_column] using h

/-! ## Empty-row search lemmas -/

lemma find_empty_row_search_ok (values : Nat) :
    ∀ fuel k m, k ≤ m → m < k + fuel → (∀ j, k ≤ j → j < m → 2 * j < values) →
      values ≤ 2 * m → find_empty_row_search values k fuel = Except.ok (3 + 2 * m) := by
  intro fuel
  induction fuel with
  | zero => intro k m h1 h2 _ _; omega
  | succ f ih =>
    intro k m h1 h2 hmin hhit
    rw [find_empty_row_search]
    by_cases hk : k = m
    · subst hk; rw [if_pos hhit]
    · have hlt : 2 * k < values := hmin k (le_refl k) (by omega)
      rw [if_neg (by omega)]
      exact ih (k + 1) m (by omega) (by omega) (fun j hj1 hj2 => hmin j (by omega) hj2) hhit

lemma find_empty_row_search_err (values : Nat) :
    ∀ fuel k, (∀ j, k ≤ j → j < k + fuel → 2 * j < values) →
      find_empty_row_search values k fuel = Except.error SheetsApiError.noEmptyRows := by
  intro fuel
  induction fuel with
  | zero => intro k _; rfl
  | succ f ih =>
    intro k h
    rw [find_empty_row_search]
    have : 2 * k < values := h k (le_refl k) (by omega)
    rw [if_neg (by omega)]
    exact ih (k + 1) (fun j hj1 hj2 => h j (by omega) (by omega))

/-! ## PartNamer lemmas -/

lemma occState_nil : occState [] = fun _ => none := by
  funext k; simp [occState]

lemma occState_append (pre : List Part) (p : Part) :
    (fun k => if k = p.name then some (pre.countP (fun q => q.name == p.name))
              else occState pre k)
      = occState (pre ++ [p]) := by
  funext k
  by_cases hk : k = p.name
  · subst hk
    simp [occState, List.countP_append, List.countP_cons]
  · have hne : (p.name == k) = false := by
      simp [Ne.symm hk]
    simp [occState, List.countP_append, List.countP_cons, hne, hk]

lemma occState_head (pre : List Part) (p : Part) :
    (match occState pre p.name with
      | some v => v + 1
      | none => 0) = pre.countP (fun q => q.name == p.name) := by
  by_cases h : pre.countP (fun q => q.name == p.name) = 0
  · simp [occState, h]
  · simp only [occState, if_neg h]
    exact Nat.succ_pred_eq_of_pos (Nat.pos_of_ne_zero h)

lemma generate_names_go_length (counts : String → Nat) (mn : String) :
    ∀ (rest : List Part) (σ : String → Option Nat),
      (PartNamer.generate_names_go counts mn rest σ).length = rest.length := by
  intro rest
  induction rest with
  | nil => intro σ; rfl
  | cons p rest ih =>
    intro σ
    rw [PartNamer.generate_names_go]
    simp [ih]

lemma generate_names_go_get (counts : String → Nat) (mn : String) :
    ∀ (rest : List Part) (pre : List Part) (i : Nat) (h : i < rest.length),
      (PartNamer.generate_names_go counts mn rest (occState pre))[i]? =
        some (PartNamer.generate_name counts mn (rest.get ⟨i, h⟩)
          ((pre ++ rest.take i).countP (fun q => q.name == (rest.get ⟨i, h⟩).name))) := by
  intro rest
  induction rest with
  | nil => intro pre i h; simp at h
  | cons p rest ih =>
    intro pre i h
    rw [PartNamer.generate_names_go, occState_head, occState_append pre p]
    match i with
    | 0 => simp
    | i + 1 =>
      have hi : i < rest.length := by simpa using h
      simp only [List.getElem?_cons_succ]
      rw [ih (pre ++ [p]) i hi]
      simp [List.take_succ_cons]

lemma generate_names_get (parts : List Part) (mn : String) (i : Nat)
    (h : i < parts.length) :
    (PartNamer.generate_names parts mn)[i]? =
      some (PartNamer.generate_name (PartNamer.name_counts parts) mn (parts.get ⟨i, h⟩)
        ((parts.take i).countP (fun q => q.name == (parts.get ⟨i, h⟩).name))) := by
  rw [PartNamer.generate_names, ← occState_nil, generate_names_go_get _ _ parts [] i h]
  simp

/-- Unfolds `generate_name` for a part whose name occurs in the counted list,
into the shape of the spec's decision table. -/
lemma generate_name_spec (parts : List Part) (mn : String) (p : Part) (occ : Nat)
    (hpos : 0 < parts.countP (fun q => q.name == p.name)) :
    PartNamer.generate_name (PartNamer.name_counts parts) mn p occ =
      (if p.name = "" then
        if p.core.getD false then
          { filename := mn, display_name := mn }
        else
          { filename := mn ++ "_" ++ toString occ,
            display_name := mn ++ "_" ++ toString occ }
      else if parts.countP (fun q => q.name == p.name) = 1 then
        { filename := mn ++ "_" ++ p.name,
          display_name := mn ++ "\n(" ++ p.name ++ ")" }
      else
        { filename := mn ++ "_" ++ p.name ++ "_" ++ toString occ,
          display_name := mn ++ "\n(" ++ p.name ++ ")" }) := by
  have h0 : ¬ parts.countP (fun q => q.name == p.name) = 0 := by omega
  rw [PartNamer.generate_name]
  simp only [PartNamer.name_counts] at h0 ⊢
  by_cases hempty : p.name = ""
  · simp only [if_pos hempty]
  · simp only [if_neg hempty, if_neg h0]
    by_cases hone : parts.countP (fun q => q.name == p.name) = 1
    · have hgt : ¬ parts.countP (fun q => q.name == p.name) > 1 := by omega
      simp only [PartNamer.name_counts] at hgt hone
      rw [if_neg hgt, if_pos hone]
    · have hgt : parts.countP (fun q => q.name == p.name) > 1 := by omega
      simp only [PartNamer.name_counts] at hgt hone
      rw [if_pos hgt, if_neg hone]

/-! ## SheetRowTransformer lemmas -/

lemma transform_monster_eq_flatMap (m : Monster) (s : Nat) :
    Sheets.transform_monster m s = (List.enumFrom 0 m.part).flatMap (transform_pair m s) := rfl

lemma transform_go_length (m : Monster) (s : Nat) :
    ∀ (l : List Part) (n : Nat),
      ((List.enumFrom n l).flatMap (transform_pair m s)).length = 2 * l.length := by
  intro l
  induction l with
  | nil => intro n; rfl
  | cons x xs ih =>
    intro n
    simp only [List.enumFrom_cons, List.flatMap_cons, List.length_append, ih]
    simp [transform_pair]
    omega

lemma transform_go_get_even (m : Monster) (s : Nat) :
    ∀ (l : List Part) (n i : Nat),
      ((List.enumFrom n l).flatMap (transform_pair m s))[2 * i]? =
        l[i]?.map (fun x =>
          { row_number := s + (n + i) * 2,
            values := Sheets.create_odd_row m x ((n + i) == 0),
            is_merged_row := false }) := by
  intro l
  induction l with
  | nil => intro n i; simp
  | cons x xs ih =>
    intro n i
    match i with
    | 0 => simp [transform_pair]
    | i + 1 =>
      have hn : n + 1 + i = n + (i + 1) := by ring
      have hlen : (transform_pair m s (n, x)).length = 2 := rfl
      simp only [List.enumFrom_cons, List.flatMap_cons]
      rw [List.getElem?_append_right (by omega), hlen,
        show 2 * (i + 1) - 2 = 2 * i from by omega, ih (n + 1) i, hn,
        List.getElem?_cons_succ]

lemma transform_go_get_odd (m : Monster) (s : Nat) :
    ∀ (l : List Part) (n i : Nat),
      ((List.enumFrom n l).flatMap (transform_pair m s))[2 * i + 1]? =
        l[i]?.map (fun x =>
          { row_number := s + (n + i) * 2 + 1,
            values := Sheets.create_even_row m x ((n + i) == 0),
            is_merged_row := false }) := by
  intro l
  induction l with
  | nil => intro n i; simp
  | cons x xs ih =>
    intro n i
    match i with
    | 0 => simp [transform_pair]
    | i + 1 =>
      have hn : n + 1 + i = n + (i + 1) := by ring
      have hlen : (transform_pair m s (n, x)).length = 2 := rfl
      simp only [List.enumFrom_cons, List.flatMap_cons]
      rw [List.getElem?_append_right (by omega), hlen,
        show 2 * (i + 1) + 1 - 2 = 2 * i + 1 from by omega, ih (n + 1) i, hn,
        List.getElem?_cons_succ]

lemma create_odd_row_absent (m : Monster) (p : Part) (f : Bool) (j : Nat)
    (hj : j ∉ ([0, 11, 15, 17, 19, 21, 23, 25, 27, 29, 31, 33, 35, 38, 48] : List Nat)) :
    (Sheets.create_odd_row m p f).getD j none = none := by
  simp only [List.mem_cons, List.not_mem_nil, or_false, not_or] at hj
  obtain ⟨h0, h11, h15, h17, h19, h21, h23, h25, h27, h29, h31, h33, h35, h38, h48⟩ := hj
  simp only [Sheets.create_odd_row]
  rw [getD_set_ne' h48, getD_set_ne' h38, getD_set_ne' h35,
      getD_set_ne' h33, getD_set_ne' h31, getD_set_ne' h29,
      getD_set_ne' h27, getD_set_ne' h25, getD_set_ne' h23,
      getD_set_ne' h21, getD_set_ne' h19, getD_set_ne' h17,
      getD_set_ne' h15, getD_set_ne' h11, getD_set_ne' h0]
  exact getD_replicate _ _ _

lemma create_even_row_absent (m : Monster) (p : Part) (f : Bool) (j : Nat)
    (hj : j ∉ ([38, 48] : List Nat)) :
    (Sheets.create_even_row m p f).getD j none = none := by
  simp only [List.mem_cons, List.not_mem_nil, or_false, not_or] at hj
  obtain ⟨h38, h48⟩ := hj
  simp only [Sheets.create_even_row]
  rw [getD_set_ne' h48, getD_set_ne' h38]
  exact getD_replicate _ _ _

end TRPGJson

namespace TRPGJson

/-- C1: for `appendMonsterData`'s empty-row search, given `values` populated
column-A cells read over the bounded range starting at row 3, the destination
is the first candidate odd row `r ∈ {3, 5, 7, ...}` whose index within the
read range (`r - 3`) reaches past the `values` populated cells (in particular
row 3 when `values = 0`, as the claim itself states), and the search fails
with `NoEmptyRows` when no such row exists within the bounded range
(`values > 998`).  The chosen row is stated both in closed form and as the
least element of the candidate set. -/
theorem C1_find_empty_row_placement (values : Nat) :
    (values = 0 → find_empty_row values = Except.ok 3) ∧
    (values ≤ 998 →
      find_empty_row values = Except.ok (3 + 2 * ((values + 1) / 2)) ∧
      IsLeast {r : Nat | r % 2 = 1 ∧ 3 ≤ r ∧ values ≤ r - 3} (3 + 2 * ((values + 1) / 2))) ∧
    (998 < values → find_empty_row values = Except.error SheetsApiError.noEmptyRows) := by
  refine ⟨fun h => by simp [find_empty_row, h], fun h => ⟨?_, ?_, ?_⟩, fun h => ?_⟩
  · by_cases h0 : values = 0
    · simp [find_empty_row, h0]
    · rw [find_empty_row, if_neg h0]
      exact find_empty_row_search_ok values 500 0 ((values + 1) / 2) (by omega) (by omega)
        (fun j _ hj => by omega) (by omega)
  · refine ⟨by omega, by omega, by omega⟩
  · rintro r ⟨hodd, h3, hge⟩
    omega
  · rw [find_empty_row, if_neg (by omega)]
    exact find_empty_row_search_err values 500 0 (fun j _ hj => by omega)

/-- C1 witness: with 4 populated cells the destination is row 7
(`3 + 2 * ((4 + 1) / 2)`). -/
theorem C1_witness : find_empty_row 4 = Except.ok 7 :=
  ((C1_find_empty_row_placement 4).2.1 (by norm_num)).1

/-- C2: `PartNamer` assigns each part, in order, the file and display name of
the spec's decision table, where the duplicate count is taken over the whole
part list and `occurrenceIndex` is the number of earlier parts sharing the
same name (a zero-based counter in encounter order). -/
theorem C2_part_namer_table (parts : List Part) (creature : String) :
    (PartNamer.generate_names parts creature).length = parts.length ∧
    ∀ (i : Nat) (h : i < parts.length),
      (PartNamer.generate_names parts creature)[i]? =
        some (
          if (parts.get ⟨i, h⟩).name = "" then
            if (parts.get ⟨i, h⟩).core.getD false then
              { filename := creature, display_name := creature }
            else
              { filename := creature ++ "_"
                  ++ toString ((parts.take i).countP (fun q => q.name == (parts.get ⟨i, h⟩).name)),
                display_name := creature ++ "_"
                  ++ toString ((parts.take i).countP (fun q => q.name == (parts.get ⟨i, h⟩).name)) }
          else if parts.countP (fun q => q.name == (parts.get ⟨i, h⟩).name) = 1 then
            { filename := creature ++ "_" ++ (parts.get ⟨i, h⟩).name,
              display_name := creature ++ "\n(" ++ (parts.get ⟨i, h⟩).name ++ ")" }
          else
            { filename := creature ++ "_" ++ (parts.get ⟨i, h⟩).name ++ "_"
                ++ toString ((parts.take i).countP (fun q => q.name == (parts.get ⟨i, h⟩).name)),
              display_name := creature ++ "\n(" ++ (parts.get ⟨i, h⟩).name ++ ")" }) := by
  constructor
  · rw [PartNamer.generate_names]
    exact generate_names_go_length _ _ _ _
  · intro i h
    have hmem : parts.get ⟨i, h⟩ ∈ parts := List.get_mem parts i h
    have hpos : 0 < parts.countP (fun q => q.name == (parts.get ⟨i, h⟩).name) :=
      List.countP_pos_iff.mpr ⟨parts.get ⟨i, h⟩, hmem, by simp⟩
    rw [generate_names_get parts creature i h, generate_name_spec parts creature _ _ hpos]

/-- C2 witness: three parts all named "根" (first core) yield the indexed file
names and the identical display name of the spec's example. -/
theorem C2_witness :
    (PartNamer.generate_names [root_part true, root_part false, root_part false] "トレント")[1]? =
      some { filename := "トレント_根_1", display_name := "トレント\n(根)" } := by
  have h := (C2_part_namer_table [root_part true, root_part false, root_part false]
    "トレント").2 1 (by decide)
  rw [h]
  rfl

/-- C8: `indexToColumn` is total on the non-negative integers, equals the
bijective base-26 encoding over digits A-Z with no zero digit, and matches
the spec's enumerated table. -/
theorem C8_index_to_column_bijective_base26 :
    (∀ i : Nat, index_to_column i = bijectiveBase26 i) ∧
    index_to_column 0 = "A" ∧ index_to_column 1 = "B" ∧ index_to_column 25 = "Z" ∧
    index_to_column 26 = "AA" ∧ index_to_column 27 = "AB" ∧ index_to_column 51 = "AZ" ∧
    index_to_column 52 = "BA" ∧ index_to_column 701 = "ZZ" ∧ index_to_column 702 = "AAA" :=
  ⟨index_to_column_eq_bij, by decide, by decide, by decide, by decide, by decide,
    by decide, by decide, by decide, by decide⟩

/-- C9: the weakness transformer is the ordered composition of the three
literal replacements (each later replacement running on the result of the
earlier ones), and the spec's two examples hold. -/
theorem C9_transform_weakness_order :
    (∀ text : String, Sheets.transform_weakness text =
      rustReplace (rustReplace (rustReplace text ("エネルギー") ("E")) ("ダメージ") ("ダメ"))
        ("属性") ("")) ∧
    Sheets.transform_weakness ("炎属性ダメージ+3") = "炎ダメ+3" ∧
    Sheets.transform_weakness ("純エネルギー属性ダメージ+2") = "純Eダメ+2" :=
  ⟨fun _ => rfl, by decide, by decide⟩

/-- C10: the spreadsheet pipeline's weakness transformer and the Udonarium
pipeline's weakness transformer compute the same function. -/
theorem C10_weakness_transformers_agree (w : String) :
    Sheets.transform_weakness w = Udonarium.transform_weakness w := rfl

end TRPGJson

namespace TRPGJson

/-- C3: `SheetRowTransformer` emits exactly two rows per body part at
`start + 2*partIndex` and `start + 2*partIndex + 1`, each 54 cells wide, with
the cell contents of the spec's column table (`f` is the partIndex-0 flag:
initiative / the two resistances / fame-weakness appear only on the first
part's rows, with dash placeholders otherwise), and every cell not assigned
by the table absent.  The transformer is a pure function of the record, so the
absence of I/O is by construction. -/
theorem C3_sheet_row_transformer (m : Monster) (s : Nat) :
    (Sheets.transform_monster m s).length = 2 * m.part.length ∧
    (∀ (i : Nat) (h : i < m.part.length),
      (Sheets.transform_monster m s)[2 * i]? =
        some { row_number := s + 2 * i,
               values := Sheets.create_odd_row m (m.part.get ⟨i, h⟩) (i == 0),
               is_merged_row := false } ∧
      (Sheets.transform_monster m s)[2 * i + 1]? =
        some { row_number := s + 2 * i + 1,
               values := Sheets.create_even_row m (m.part.get ⟨i, h⟩) (i == 0),
               is_merged_row := false }) ∧
    (∀ (p : Part) (f : Bool),
      (Sheets.create_odd_row m p f).length = 54 ∧
      (Sheets.create_odd_row m p f).getD 0 none =
        some (if p.core.getD false then
            "★" ++ (if p.name = "" then m.name else m.name ++ "\n(" ++ p.name ++ ")")
          else if p.name = "" then m.name else m.name ++ "\n(" ++ p.name ++ ")") ∧
      (Sheets.create_odd_row m p f).getD 11 none = p.hp.map (fun hp => toString hp) ∧
      (Sheets.create_odd_row m p f).getD 15 none =
        some (if 0 ≤ p.mp then toString p.mp else "-") ∧
      (Sheets.create_odd_row m p f).getD 17 none = some (toString p.armor) ∧
      (Sheets.create_odd_row m p f).getD 19 none =
        some (if f then toString m.initiative else "-") ∧
      (Sheets.create_odd_row m p f).getD 21 none =
        some (if f then toString m.life_resistance else "-") ∧
      (Sheets.create_odd_row m p f).getD 23 none =
        some (if f then toString m.mental_resistance else "-") ∧
      (Sheets.create_odd_row m p f).getD 25 none = some ("3") ∧
      (Sheets.create_odd_row m p f).getD 27 none =
        some (if m.moveon = -1 then "-"
          else if m.moveon_description = "" then toString m.moveon
          else toString m.moveon ++ "\n(" ++ m.moveon_description ++ ")") ∧
      (Sheets.create_odd_row m p f).getD 29 none =
        some (if m.movein = -1 then "-"
          else if m.movein_description = "" then toString m.movein
          else toString m.movein ++ "\n(" ++ m.movein_description ++ ")") ∧
      (Sheets.create_odd_row m p f).getD 31 none =
        p.hit_rate.map (fun hit_rate => toString hit_rate) ∧
      (Sheets.create_odd_row m p f).getD 33 none = p.dodge.map (fun dodge => toString dodge) ∧
      (Sheets.create_odd_row m p f).getD 35 none = some m.data ∧
      (Sheets.create_odd_row m p f).getD 38 none =
        (if m.common_abilities = "" then none else some m.common_abilities) ∧
      (Sheets.create_odd_row m p f).getD 48 none =
        some (if f then toString m.fame ++ "/" ++ toString m.weakness_value else "-/-") ∧
      (∀ j : Nat,
        j ∉ ([0, 11, 15, 17, 19, 21, 23, 25, 27, 29, 31, 33, 35, 38, 48] : List Nat) →
        (Sheets.create_odd_row m p f).getD j none = none)) ∧
    (∀ (p : Part) (f : Bool),
      (Sheets.create_even_row m p f).length = 54 ∧
      (Sheets.create_even_row m p f).getD 38 none =
        (if p.special_abilities = "" then none else some p.special_abilities) ∧
      (Sheets.create_even_row m p f).getD 48 none =
        some (if f then
            (if m.weakness = "" then "-" else Sheets.transform_weakness m.weakness)
          else "-") ∧
      (∀ j : Nat, j ∉ ([38, 48] : List Nat) →
        (Sheets.create_even_row m p f).getD j none = none)) := by
  refine ⟨?_, ?_, ?_, ?_⟩
  · rw [transform_monster_eq_flatMap]
    exact transform_go_length m s m.part 0
  · intro i h
    constructor
    · rw [transform_monster_eq_flatMap, transform_go_get_even m s m.part 0 i,
        List.getElem?_eq_getElem h]
      simp [Nat.mul_comm]
    · rw [transform_monster_eq_flatMap, transform_go_get_odd m s m.part 0 i,
        List.getElem?_eq_getElem h]
      simp [Nat.mul_comm]
  · intro p f
    refine ⟨by simp [Sheets.create_odd_row], by simp [Sheets.create_odd_row],
      by simp [Sheets.create_odd_row], by simp [Sheets.create_odd_row],
      by simp [Sheets.create_odd_row], by simp [Sheets.create_odd_row],
      by simp [Sheets.create_odd_row], by simp [Sheets.create_odd_row],
      by simp [Sheets.create_odd_row], by simp [Sheets.create_odd_row],
      by simp [Sheets.create_odd_row], by simp [Sheets.create_odd_row],
      by simp [Sheets.create_odd_row], by simp [Sheets.create_odd_row],
      by simp [Sheets.create_odd_row], by simp [Sheets.create_odd_row],
      create_odd_row_absent m p f⟩
  · intro p f
    exact ⟨by simp [Sheets.create_even_row], by simp [Sheets.create_even_row],
      by simp [Sheets.create_even_row], create_even_row_absent m p f⟩

end TRPGJson

namespace TRPGJson

/-- C3 witness: the spec's single-part core creature "テストモンスター"
starting at row 3: odd-row cell 0, 11, 15 and even-row cell 48 have the
expected values, and the first output row is row 3. -/
theorem C3_witness :
    (Sheets.transform_monster test_monster 3)[0]? =
      some { row_number := 3,
             values := Sheets.create_odd_row test_monster test_part true,
             is_merged_row := false } ∧
    (Sheets.create_odd_row test_monster test_part true).getD 0 none = some ("★テストモンスター") ∧
    (Sheets.create_odd_row test_monster test_part true).getD 11 none = some ("48") ∧
    (Sheets.create_odd_row test_monster test_part true).getD 15 none = some ("75") ∧
    (Sheets.create_even_row test_monster test_part true).getD 48 none = some ("ダメ+3") := by
  obtain ⟨hlen, hrows, hodd, heven⟩ := C3_sheet_row_transformer test_monster 3
  refine ⟨?_, ?_, ?_, ?_, ?_⟩
  · exact (hrows 0 (by decide)).1
  · rw [(hodd test_part true).2.1]
    decide
  · rw [(hodd test_part true).2.2.1]
    decide
  · rw [(hodd test_part true).2.2.2.1]
    decide
  · rw [(heven test_part true).2.2.1]
    decide

set_option maxRecDepth 32768 in
/-- C4: in both character-sheet templates the chat-macro block is one fixed
text, laid out as the helper section, then the fixed-value judgment section
(exactly 4 formulas, each `C(\x7bstat\x7d+7)` for hit / dodge / life
resistance / mental resistance), then the dice judgment section (exactly 5
`2d+` rolls for hit / damage / dodge / life resistance / mental resistance),
in that fixed order.  Every generated document factors as an input-dependent
front followed by the input-independent tail holding that block, and the
common-abilities and special-abilities interpolations occur only in the
front — so neither text ever appears inside the chat-macro block. -/
theorem C4_chat_macro_block :
    (chat_palette_fixed =
      "//-----固定値判定\n"
        ++ "C(\x7b命中力\x7d+7) 命中判定（固定値）\n"
        ++ "C(\x7b回避力\x7d+7) 回避判定（固定値）\n"
        ++ "C(\x7b生命抵抗力\x7d+7) 生命抵抗判定（固定値）\n"
        ++ "C(\x7b精神抵抗力\x7d+7) 精神抵抗判定（固定値）\n\n") ∧
    countSubstr chat_palette_fixed ("C(\x7b") = 4 ∧
    (chat_palette_dice =
      "//-----ダイス判定\n"
        ++ "2d+\x7b命中力\x7d　命中判定\n"
        ++ "2d+\x7b打撃点\x7d　ダメージロール\n"
        ++ "2d+\x7b回避力\x7d　回避判定\n"
        ++ "2d+\x7b生命抵抗力\x7d　生命抵抗判定\n"
        ++ "2d+\x7b精神抵抗力\x7d　精神抵抗判定\n") ∧
    countSubstr chat_palette_dice ("2d+\x7b") = 5 ∧
    (Udonarium.core_xml_tail =
      "</data>\n      </data>\n    </data>\n  </data>\n  "
        ++ chat_palette_open ++ chat_palette_calc ++ chat_palette_fixed
        ++ chat_palette_dice ++ "  </chat-palette>\n</character>") ∧
    (Udonarium.non_core_xml_tail =
      "</data>\n       </data>\n     </data>\n   </data>\n   "
        ++ chat_palette_open ++ chat_palette_calc ++ chat_palette_fixed
        ++ chat_palette_dice ++ "   </chat-palette>\n </character>") ∧
    (∀ (m : Udonarium.TransformedMonster) (p : Udonarium.TransformedPart),
      Udonarium.generate_core_part_xml m p =
        "<?xml version=\"1.0\" encoding=\"utf-8\"?>\n<character location.name=\"table\" location.x=\"0\" location.y=\"0\" posZ=\"0\" rotate=\"0\" roll=\"0\">\n  <data name=\"character\">\n    <data name=\"image\">\n      <data type=\"image\" name=\"imageIdentifier\"></data>\n    </data>\n    <data name=\"common\">\n      <data name=\"name\">"
        ++ p.display_name
        ++ "</data>\n      <data name=\"size\">1</data>\n    </data>\n    <data name=\"detail\">\n      <data name=\"リソース\">\n        <data type=\"numberResource\" currentValue=\""
        ++ toString p.hp
        ++ "\" name=\"HP\">"
        ++ toString p.hp
        ++ "</data>\n        <data type=\"numberResource\" currentValue=\""
        ++ toString p.mp
        ++ "\" name=\"MP\">"
        ++ toString p.mp
        ++ "</data>\n        <data type=\"numberResource\" currentValue=\""
        ++ toString p.armor
        ++ "\" name=\"防護点\">"
        ++ toString p.armor
        ++ "</data>\n      </data>\n      <data name=\"ステータス・バフ・デバフ\">\n        <data name=\"命中力\" type=\"number\">"
        ++ toString (Udonarium.adjust_value p.hit_rate)
        ++ "</data>\n        <data name=\"打撃点\" type=\"number\">"
        ++ toString p.damage
        ++ "</data>\n        <data name=\"回避力\" type=\"number\">"
        ++ toString (Udonarium.adjust_value p.dodge)
        ++ "</data>\n        <data name=\"生命抵抗力\" type=\"number\">"
        ++ toString (Udonarium.adjust_value p.life_resistance)
        ++ "</data>\n        <data name=\"精神抵抗力\" type=\"number\">"
        ++ toString (Udonarium.adjust_value p.mental_resistance)
        ++ "</data>\n      </data>\n      <data name=\"特殊能力\">\n        <data name=\"特殊能力1\" type=\"note\">"
        ++ m.common_abilities
        ++ "</data>\n        <data name=\"特殊能力2\" type=\"note\">"
        ++ p.special_abilities
        ++ "</data>\n      </data>\n       <data name=\"戦闘準備\">\n         <data name=\"魔物知識・先制判定\" type=\"note\">"
        ++ toString m.fame
        ++ "/"
        ++ toString p.weakness_value
        ++ "\n"
        ++ toString m.initiative
        ++ "</data>\n       </data>\n      <data name=\"情報\">\n        <data name=\"弱点\" type=\"note\">"
        ++ Udonarium.transform_weakness p.weakness
        ++ "</data>\n      </data>\n      <data name=\"魔物知識\">\n        <data name=\"生態\" type=\"note\">"
        ++ m.category
        ++ " Lv."
        ++ toString m.level
        ++ Udonarium.core_xml_tail) ∧
    (∀ (m : Udonarium.TransformedMonster) (p : Udonarium.TransformedPart),
      Udonarium.generate_non_core_part_xml m p =
        "<?xml version=\"1.0\" encoding=\"utf-8\"?>\n  <character location.name=\"table\" location.x=\"0\" location.y=\"0\" posZ=\"0\" rotate=\"0\" roll=\"0\">\n    <data name=\"character\">\n      <data name=\"image\">\n        <data type=\"image\" name=\"imageIdentifier\"></data>\n      </data>\n      <data name=\"common\">\n        <data name=\"name\">"
        ++ p.display_name
        ++ "</data>\n        <data name=\"size\">1</data>\n      </data>\n      <data name=\"detail\">\n       <data name=\"リソース\">\n         <data type=\"numberResource\" currentValue=\""
        ++ toString p.hp
        ++ "\" name=\"HP\">"
        ++ toString p.hp
        ++ "</data>\n         <data type=\"numberResource\" currentValue=\""
        ++ toString p.mp
        ++ "\" name=\"MP\">"
        ++ toString p.mp
        ++ "</data>\n         <data type=\"numberResource\" currentValue=\""
        ++ toString p.armor
        ++ "\" name=\"防護点\">"
        ++ toString p.armor
        ++ "</data>\n       </data>\n       <data name=\"ステータス・バフ・デバフ\">\n         <data name=\"命中力\" type=\"number\">"
        ++ toString (Udonarium.adjust_value p.hit_rate)
        ++ "</data>\n         <data name=\"打撃点\" type=\"number\">"
        ++ toString p.damage
        ++ "</data>\n         <data name=\"回避力\" type=\"number\">"
        ++ toString (Udonarium.adjust_value p.dodge)
        ++ "</data>\n         <data name=\"生命抵抗力\" type=\"number\">"
        ++ toString (Udonarium.adjust_value p.life_resistance)
        ++ "</data>\n         <data name=\"精神抵抗力\" type=\"number\">"
        ++ toString (Udonarium.adjust_value p.mental_resistance)
        ++ "</data>\n       </data>\n       <data name=\"特殊能力\">\n         <data name=\"特殊能力1\" type=\"note\">"
        ++ m.common_abilities
        ++ "</data>\n         <data name=\"特殊能力2\" type=\"note\">"
        ++ p.special_abilities
        ++ Udonarium.non_core_xml_tail) :=
  ⟨by decide, by decide, by decide, by decide, by decide, by decide,
    fun m p => rfl, fun m p => rfl⟩

/-- C7: the stat adjuster is `max(value - 7, 0)` on every integer, with the
spec's four sample values, and both templates apply it to exactly the four
non-damage statistics of the stats block (hit, dodge, life resistance,
mental resistance) while passing damage through unadjusted. -/
theorem C7_stat_adjuster (v : Int) :
    Udonarium.adjust_value v = max (v - 7) 0 ∧
    Udonarium.adjust_value 22 = 15 ∧ Udonarium.adjust_value 7 = 0 ∧
    Udonarium.adjust_value 5 = 0 ∧ Udonarium.adjust_value 30 = 23 ∧
    (∀ (m : Udonarium.TransformedMonster) (p : Udonarium.TransformedPart),
      Udonarium.generate_core_part_xml m p =
        "<?xml version=\"1.0\" encoding=\"utf-8\"?>\n<character location.name=\"table\" location.x=\"0\" location.y=\"0\" posZ=\"0\" rotate=\"0\" roll=\"0\">\n  <data name=\"character\">\n    <data name=\"image\">\n      <data type=\"image\" name=\"imageIdentifier\"></data>\n    </data>\n    <data name=\"common\">\n      <data name=\"name\">"
        ++ p.display_name
        ++ "</data>\n      <data name=\"size\">1</data>\n    </data>\n    <data name=\"detail\">\n      <data name=\"リソース\">\n        <data type=\"numberResource\" currentValue=\""
        ++ toString p.hp
        ++ "\" name=\"HP\">"
        ++ toString p.hp
        ++ "</data>\n        <data type=\"numberResource\" currentValue=\""
        ++ toString p.mp
        ++ "\" name=\"MP\">"
        ++ toString p.mp
        ++ "</data>\n        <data type=\"numberResource\" currentValue=\""
        ++ toString p.armor
        ++ "\" name=\"防護点\">"
        ++ toString p.armor
        ++ "</data>\n      </data>\n      <data name=\"ステータス・バフ・デバフ\">\n        <data name=\"命中力\" type=\"number\">"
        ++ toString (max (p.hit_rate - 7) 0)
        ++ "</data>\n        <data name=\"打撃点\" type=\"number\">"
        ++ toString p.damage
        ++ "</data>\n        <data name=\"回避力\" type=\"number\">"
        ++ toString (max (p.dodge - 7) 0)
        ++ "</data>\n        <data name=\"生命抵抗力\" type=\"number\">"
        ++ toString (max (p.life_resistance - 7) 0)
        ++ "</data>\n        <data name=\"精神抵抗力\" type=\"number\">"
        ++ toString (max (p.mental_resistance - 7) 0)
        ++ "</data>\n      </data>\n      <data name=\"特殊能力\">\n        <data name=\"特殊能力1\" type=\"note\">"
        ++ m.common_abilities
        ++ "</data>\n        <data name=\"特殊能力2\" type=\"note\">"
        ++ p.special_abilities
        ++ "</data>\n      </data>\n       <data name=\"戦闘準備\">\n         <data name=\"魔物知識・先制判定\" type=\"note\">"
        ++ toString m.fame
        ++ "/"
        ++ toString p.weakness_value
        ++ "\n"
        ++ toString m.initiative
        ++ "</data>\n       </data>\n      <data name=\"情報\">\n        <data name=\"弱点\" type=\"note\">"
        ++ Udonarium.transform_weakness p.weakness
        ++ "</data>\n      </data>\n      <data name=\"魔物知識\">\n        <data name=\"生態\" type=\"note\">"
        ++ m.category
        ++ " Lv."
        ++ toString m.level
        ++ Udonarium.core_xml_tail) ∧
    (∀ (m : Udonarium.TransformedMonster) (p : Udonarium.TransformedPart),
      Udonarium.generate_non_core_part_xml m p =
        "<?xml version=\"1.0\" encoding=\"utf-8\"?>\n  <character location.name=\"table\" location.x=\"0\" location.y=\"0\" posZ=\"0\" rotate=\"0\" roll=\"0\">\n    <data name=\"character\">\n      <data name=\"image\">\n        <data type=\"image\" name=\"imageIdentifier\"></data>\n      </data>\n      <data name=\"common\">\n        <data name=\"name\">"
        ++ p.display_name
        ++ "</data>\n        <data name=\"size\">1</data>\n      </data>\n      <data name=\"detail\">\n       <data name=\"リソース\">\n         <data type=\"numberResource\" currentValue=\""
        ++ toString p.hp
        ++ "\" name=\"HP\">"
        ++ toString p.hp
        ++ "</data>\n         <data type=\"numberResource\" currentValue=\""
        ++ toString p.mp
        ++ "\" name=\"MP\">"
        ++ toString p.mp
        ++ "</data>\n         <data type=\"numberResource\" currentValue=\""
        ++ toString p.armor
        ++ "\" name=\"防護点\">"
        ++ toString p.armor
        ++ "</data>\n       </data>\n       <data name=\"ステータス・バフ・デバフ\">\n         <data name=\"命中力\" type=\"number\">"
        ++ toString (max (p.hit_rate - 7) 0)
        ++ "</data>\n         <data name=\"打撃点\" type=\"number\">"
        ++ toString p.damage
        ++ "</data>\n         <data name=\"回避力\" type=\"number\">"
        ++ toString (max (p.dodge - 7) 0)
        ++ "</data>\n         <data name=\"生命抵抗力\" type=\"number\">"
        ++ toString (max (p.life_resistance - 7) 0)
        ++ "</data>\n         <data name=\"精神抵抗力\" type=\"number\">"
        ++ toString (max (p.mental_resistance - 7) 0)
        ++ "</data>\n       </data>\n       <data name=\"特殊能力\">\n         <data name=\"特殊能力1\" type=\"note\">"
        ++ m.common_abilities
        ++ "</data>\n         <data name=\"特殊能力2\" type=\"note\">"
        ++ p.special_abilities
        ++ Udonarium.non_core_xml_tail) :=
  ⟨rfl, by decide, by decide, by decide, by decide, fun m p => rfl, fun m p => rfl⟩

end TRPGJson

namespace TRPGJson

/-- C5: for a spell whose support flag is false or absent and whose name,
school, MP, target, range, duration and effect extract successfully, the
renderer produces the single dice-roll macro line, with the magic category
equal to the school plus the literal "魔法" suffix exactly when the school is
two characters long (school verbatim otherwise) and with the
execution-modifier placeholder "行使修正" emitted literally in braces. -/
theorem C5_regular_spell_palette (spell : Spell)
    (mp target range duration effect : String)
    (hsupport : ((spell.extraGet ("補助")).bind Json.as_bool).getD false = false)
    (hname : ¬ spell.name = "")
    (hschool : ¬ spell.school = "")
    (hmp : Palette.format_mp spell = Except.ok mp)
    (htarget : Palette.format_target spell = Except.ok target)
    (hrange : Palette.format_range spell = Except.ok range)
    (hduration : Palette.format_duration spell = Except.ok duration)
    (heffect : (spell.extraGet ("効果")).bind Json.as_str = some effect) :
    Palette.generate_spell_palette spell =
      Except.ok ("2d+\x7b"
        ++ (if spell.school.length = 2 then spell.school ++ "魔法" else spell.school)
        ++ "\x7d+\x7b行使修正\x7d  " ++ spell.name ++ " / MP:" ++ mp ++ " / 対象:" ++ target
        ++ " / 射程:" ++ range ++ " / 時間:" ++ duration ++ " / " ++ effect) := by
  rw [Palette.generate_spell_palette, if_neg hname]
  simp only [hsupport, if_neg (Bool.false_ne_true)]
  rw [Palette.generate_regular_palette, if_neg hschool]
  simp [hmp, htarget, hrange, hduration, heffect, Palette.format_magic_category,
    Except.bind]
  rfl

/-- C5 witness: the palette test-suite spell "ゴッド・ジャッジメント" (school
"神聖", two characters) renders to the expected macro line. -/
theorem C5_witness :
    Palette.generate_spell_palette god_judgement_spell =
      Except.ok ("2d+\x7b神聖魔法\x7d+\x7b行使修正\x7d  ゴッド・ジャッジメント / MP:15 / 対象:1エリア(半径4mすべて) / 射程:術者 / 時間:一瞬 / 物理的に神の捌きを下す。") := by
  rw [C5_regular_spell_palette god_judgement_spell ("15") ("1エリア(半径4mすべて)")
    ("術者") ("一瞬") ("物理的に神の捌きを下す。") rfl (by decide) (by decide) rfl rfl rfl rfl rfl]
  rfl

/-- C6: with an empty record list, the Spreadsheet strategy always fails
before any output (with the specific descriptive message whenever the
destination itself is valid), the VirtualTabletop strategy fails with its
descriptive message before any output, and the JSON strategy succeeds,
writing the file content "[]". -/
theorem C6_empty_record_list (dest : String) (render : Monster → String) :
    (∃ e, google_sheets_export [] dest = Except.error e) ∧
    (google_sheets_validate_spreadsheet_id dest = Except.ok () →
      google_sheets_export [] dest =
        Except.error (ExportError.googleSheetsError
          ("Cannot export empty monster list. Please filter data first."))) ∧
    udonarium_export [] =
      Except.error (ExportError.googleSheetsError ("Cannot export empty monster list")) ∧
    json_export render [] true = Except.ok ("[]") := by
  refine ⟨?_, fun hvalid => ?_, rfl, rfl⟩
  · rw [google_sheets_export]
    match hv : google_sheets_validate_spreadsheet_id dest with
    | Except.error e => exact ⟨e, rfl⟩
    | Except.ok _ => exact ⟨_, rfl⟩
  · rw [google_sheets_export, hvalid]
    rfl

/-- C6 witness: at the test-suite spreadsheet id, the empty list is rejected
with the descriptive message, and the JSON strategy writes "[]". -/
theorem C6_witness :
    google_sheets_export [] ("1BxiMVs0XRA5nFMKUVfIz487hJblLvZQvq_fHM9GjMhs") =
      Except.error (ExportError.googleSheetsError
        ("Cannot export empty monster list. Please filter data first.")) ∧
    json_export (fun _ => "") [] true = Except.ok ("[]") :=
  ⟨(C6_empty_record_list ("1BxiMVs0XRA5nFMKUVfIz487hJblLvZQvq_fHM9GjMhs")
      (fun _ => "")).2.1 rfl,
    (C6_empty_record_list ("1BxiMVs0XRA5nFMKUVfIz487hJblLvZQvq_fHM9GjMhs")
      (fun _ => "")).2.2.2⟩

end TRPGJson

